import Mathlib

/-!
Shallow embedding of the mask subsystem (`AFQ/mask.py`) of the pyAFQ
repository, together with theorems settling the frozen claims about it.

Modelling conventions:
* numpy arrays are `NPArray`: a dtype tag, a shape (`List Nat`) and the
  row-major data (`List Rat`); boolean arrays store `0`/`1` with dtype
  `.bool` (numpy truthiness is `≠ 0`).
* Python exceptions are `Except PyError`; each constructor records the
  exception class and message the Python code would raise.
* External collaborators (BIDS layout queries, `nib.load`,
  `reg.resample`, the `afq` context) are passed in as data/oracles: the
  theorems hold for every behaviour of those collaborators.
* Python dicts keyed by strings are `PyDict` (`String → Option _`).
-/

set_option linter.unusedVariables false

inductive DType where
  | bool
  | int
  | float
deriving DecidableEq

structure NPArray where
  dtype : DType
  shape : List Nat
  data : List Rat
deriving DecidableEq

/-- Interpretation of a `Bool` as a numpy boolean-array element. -/
def b2r (b : Bool) : Rat := if b then 1 else 0

/-- numpy truthiness of an array element: true iff nonzero. -/
def truthy (q : Rat) : Bool := decide (q ≠ 0)

/-- `np.zeros(shape, dtype=bool)`. -/
def np_zeros_bool (shape : List Nat) : NPArray :=
  ⟨.bool, shape, List.replicate shape.prod 0⟩

/-- `np.ones(shape, dtype=bool)`. -/
def np_ones_bool (shape : List Nat) : NPArray :=
  ⟨.bool, shape, List.replicate shape.prod 1⟩

/-- `np.ones(shape)` with the default floating-point dtype. -/
def np_ones (shape : List Nat) : NPArray :=
  ⟨.float, shape, List.replicate shape.prod 1⟩

/-- Elementwise `array < c`. -/
def np_lt (a : NPArray) (c : Rat) : NPArray :=
  ⟨.bool, a.shape, a.data.map fun v => b2r (decide (v < c))⟩

/-- Elementwise `array > c`. -/
def np_gt (a : NPArray) (c : Rat) : NPArray :=
  ⟨.bool, a.shape, a.data.map fun v => b2r (decide (c < v))⟩

/-- Elementwise `array == c`. -/
def np_eq (a : NPArray) (c : Rat) : NPArray :=
  ⟨.bool, a.shape, a.data.map fun v => b2r (decide (v = c))⟩

/-- Elementwise `array != c`. -/
def np_ne (a : NPArray) (c : Rat) : NPArray :=
  ⟨.bool, a.shape, a.data.map fun v => b2r (decide (v ≠ c))⟩

/-- `np.logical_or` on same-shape arrays. -/
def np_logical_or (a b : NPArray) : NPArray :=
  ⟨.bool, a.shape, List.zipWith (fun x y => b2r (truthy x || truthy y)) a.data b.data⟩

/-- `np.logical_and` on same-shape arrays. -/
def np_logical_and (a b : NPArray) : NPArray :=
  ⟨.bool, a.shape, List.zipWith (fun x y => b2r (truthy x && truthy y)) a.data b.data⟩

/-- Rounding to the nearest integer, ties to even (numpy rounding rule). -/
def roundHalfEven (q : Rat) : Int :=
  let f : Int := ⌊q⌋
  let r : Rat := q - f
  if r < 1 / 2 then f
  else if 1 / 2 < r then f + 1
  else if f % 2 = 0 then f else f + 1

/-- `np.round`, keeping the dtype. -/
def np_round (a : NPArray) : NPArray :=
  ⟨a.dtype, a.shape, a.data.map fun v => ((roundHalfEven v : Int) : Rat)⟩

/-- Truncation toward zero (numpy float-to-int cast). -/
def ratTrunc (q : Rat) : Int := if 0 ≤ q then ⌊q⌋ else ⌈q⌉

/-- Value cast performed by `ndarray.astype`. -/
def DType.cast : DType → Rat → Rat
  | .bool, q => b2r (truthy q)
  | .int, q => ((ratTrunc q : Int) : Rat)
  | .float, q => q

/-- `ndarray.astype(t)`. -/
def NPArray.astype (a : NPArray) (t : DType) : NPArray :=
  ⟨t, a.shape, a.data.map (DType.cast t)⟩

/-- `arr[..., 0]`: drop the last axis, taking index 0 along it. -/
def np_index_last0 (a : NPArray) : NPArray :=
  let k := a.shape.getLast?.getD 1
  ⟨a.dtype, a.shape.dropLast, (a.data.enum.filter fun p => p.1 % k == 0).map Prod.snd⟩

/-- A 4x4 voxel-to-world transform, as loaded from an image header. -/
abbrev Affine := List (List Rat)

/-- Python values appearing in provenance-metadata dicts. -/
inductive PyVal where
  | pynone
  | str (s : String)
  | num (q : Rat)
  | list (xs : List PyVal)
  | dict (fields : List (String × PyVal))

/-- A provenance-metadata dict (ordered key/value pairs). -/
abbrev Meta := List (String × PyVal)

/-- An optional number, as stored in a metadata dict. -/
def optNum : Option Rat → PyVal
  | none => .pynone
  | some q => .num q

/-- An optional list of labels, as stored in a metadata dict. -/
def optNumList : Option (List Rat) → PyVal
  | none => .pynone
  | some l => .list (l.map PyVal.num)

/-- Python exceptions that the mask module can raise. -/
inductive PyError where
  | typeError (msg : String)
  | attributeError (msg : String)
  | keyError (key : String)
  | indexError (msg : String)
  | runtimeError (msg : String)
deriving DecidableEq

/-- The error raised by `_MaskCombiner.combine_illdefined`. -/
def combine_illdefined (combine : String) : PyError :=
  .typeError ("combine should be either \x27or\x27 or \x27and\x27, you set combine to " ++ combine)

/-- State of a `_MaskCombiner`: the (mutable) operator tag and the running mask. -/
structure _MaskCombiner where
  combine : String
  mask : NPArray
deriving DecidableEq

/-- `_MaskCombiner.__init__(shape, combine)`. -/
def _MaskCombiner.init (shape : List Nat) (combine : String) : Except PyError _MaskCombiner :=
  if combine = "or" then .ok ⟨combine, np_zeros_bool shape⟩
  else if combine = "and" then .ok ⟨combine, np_ones_bool shape⟩
  else .error (combine_illdefined combine)

/-- `_MaskCombiner.combine_mask(other_mask)`: returns the updated combiner. -/
def _MaskCombiner.combine_mask (self : _MaskCombiner) (other_mask : NPArray) :
    Except PyError _MaskCombiner :=
  if self.combine = "or" then .ok ⟨self.combine, np_logical_or self.mask other_mask⟩
  else if self.combine = "and" then .ok ⟨self.combine, np_logical_and self.mask other_mask⟩
  else .error (combine_illdefined self.combine)

/-- `_resample_mask(mask_data, dwi_data, mask_affine, dwi_affine)`.
`resample` is the external `reg.resample` collaborator, passed as an oracle. -/
def _resample_mask (mask_data : NPArray) (dwi_data : Option NPArray) (mask_affine : Affine)
    (dwi_affine : Option Affine) (resample : NPArray → NPArray → Affine → Affine → NPArray) :
    NPArray :=
  let mask_type := mask_data.dtype
  match dwi_data, dwi_affine with
  | some dwi, some daff =>
      if (np_index_last0 dwi).shape ≠ mask_data.shape then
        (np_round (resample (mask_data.astype .float) (np_index_last0 dwi)
          mask_affine daff)).astype mask_type
      else
        mask_data
  | _, _ => mask_data

/-- A string-keyed Python dict. -/
def PyDict (β : Type) : Type := String → Option β

/-- The empty dict `\x7b\x7d`. -/
def PyDict.empty {β : Type} : PyDict β := fun _ => none

/-- `d[k] = v`. -/
def PyDict.set {β : Type} (d : PyDict β) (k : String) (v : β) : PyDict β :=
  fun q => if q = k then some v else d q

/-- The external context a `get_mask` call sees for one processing row: the
diffusion data and affine from `afq._get_data_gtab(row)`, the `nib.load`
image loader, the `reg.resample` service and `afq._scalar_dict` (with each
scalar-path function already applied to this row). -/
structure AFQ where
  dwi_data : NPArray
  dwi_affine : Affine
  load : String → NPArray × Affine
  resample : NPArray → NPArray → Affine → Affine → NPArray
  scalar_dict : List (String × String)

/-- `MaskFile.find_path(bids_layout, subject, session)`: `bids_result` is the
list returned by the `bids_layout.get` query; the first entry is cached under
`fnames[session][subject]` (an empty query list raises `IndexError`). -/
def MaskFile.find_path (fnames : PyDict (PyDict String)) (bids_result : List String)
    (subject session : String) : Except PyError (PyDict (PyDict String)) :=
  let inner := match fnames session with
    | some d => d
    | none => PyDict.empty
  match bids_result with
  | [] => .error (.indexError "list index out of range")
  | f :: _ => .ok (fnames.set session (inner.set subject f))

/-- `MaskFile.get_path_data_affine(afq, row)`: reads the cached path for
`fnames[row.ses][row.subject]` (raising `KeyError` on a missing key) and loads
the image. -/
def MaskFile.get_path_data_affine (fnames : PyDict (PyDict String))
    (load : String → NPArray × Affine) (ses subject : String) :
    Except PyError (String × NPArray × Affine) :=
  match fnames ses with
  | none => .error (.keyError ses)
  | some inner =>
      match inner subject with
      | none => .error (.keyError subject)
      | some mask_file => .ok (mask_file, (load mask_file).1, (load mask_file).2)

/-- `MaskFile.apply_conditions`: identity pass-through. -/
def MaskFile.apply_conditions (mask_data_orig : NPArray) (mask_file : String) :
    Except PyError (NPArray × Meta) :=
  .ok (mask_data_orig, [("source", .str mask_file)])

/-- The body of `MaskFile.get_mask(afq, row)`, parametrised by the two methods
that subclasses override (mirroring Python dynamic dispatch). -/
def MaskFile.get_mask_generic (get_path_data_affine : Except PyError (String × NPArray × Affine))
    (apply_conditions : NPArray → String → Except PyError (NPArray × Meta)) (afq : AFQ) :
    Except PyError (NPArray × Meta) := do
  let dwi_data := afq.dwi_data
  let (mask_file, mask_data_orig, mask_affine) ← get_path_data_affine
  let (mask_data, meta) ← apply_conditions mask_data_orig mask_file
  let mask_data := _resample_mask mask_data (some dwi_data) mask_affine
    (some afq.dwi_affine) afq.resample
  pure (mask_data, meta)

/-- `MaskFile.get_mask(afq, row)` with `MaskFile` methods. -/
def MaskFile.get_mask (fnames : PyDict (PyDict String)) (afq : AFQ) (ses subject : String) :
    Except PyError (NPArray × Meta) :=
  MaskFile.get_mask_generic (MaskFile.get_path_data_affine fnames afq.load ses subject)
    MaskFile.apply_conditions afq

/-- `FullMask.find_path`: a no-op (`pass`). -/
def FullMask.find_path (bids_layout : Unit) (subject session : String) : Unit := ()

/-- `FullMask.get_mask(afq, row)`: `np.ones(dwi_data.shape)` and its metadata. -/
def FullMask.get_mask (afq : AFQ) : NPArray × Meta :=
  (np_ones afq.dwi_data.shape, [("source", .str "Entire Volume")])

/-- `LabelledMaskFile.apply_conditions(mask_data_orig, mask_file)`. -/
def LabelledMaskFile.apply_conditions (ilabels elabels : Option (List Rat)) (combine : String)
    (mask_data_orig : NPArray) (mask_file : String) : Except PyError (NPArray × Meta) := do
  let mask ← _MaskCombiner.init mask_data_orig.shape combine
  let mask ← match ilabels with
    | some labels =>
        labels.foldlM (fun m label => m.combine_mask (np_eq mask_data_orig label)) mask
    | none => pure mask
  let mask ← match elabels with
    | some labels =>
        labels.foldlM (fun m label => m.combine_mask (np_ne mask_data_orig label)) mask
    | none => pure mask
  let meta : Meta := [("source", .str mask_file), ("inclusive_labels", optNumList ilabels),
    ("exclusive_lavels", optNumList elabels), ("combined_with", .str combine)]
  pure (mask.mask, meta)

/-- `ThresholdedMaskFile.apply_conditions(mask_data_orig, mask_file)`. -/
def ThresholdedMaskFile.apply_conditions (lb ub : Option Rat) (combine : String)
    (mask_data_orig : NPArray) (mask_file : String) : Except PyError (NPArray × Meta) := do
  let mask ← _MaskCombiner.init mask_data_orig.shape combine
  let mask ← match ub with
    | some u => mask.combine_mask (np_lt mask_data_orig u)
    | none => pure mask
  let mask ← match lb with
    | some l => mask.combine_mask (np_gt mask_data_orig l)
    | none => pure mask
  let meta : Meta := [("source", .str mask_file), ("upper_bound", optNum ub),
    ("lower_bound", optNum lb), ("combined_with", .str combine)]
  pure (mask.mask, meta)

/-- `ScalarMask.find_path`: a no-op (`pass`). -/
def ScalarMask.find_path (bids_layout : Unit) (subject session : String) : Unit := ()

/-- `ScalarMask.get_path_data_affine(afq, row)`. -/
def ScalarMask.get_path_data_affine (afq : AFQ) (scalar_name : String) :
    Except PyError (String × NPArray × Affine) :=
  let valid_scalars := afq.scalar_dict.map Prod.fst
  if scalar_name ∈ valid_scalars then
    match afq.scalar_dict.lookup scalar_name with
    | some scalar_fname =>
        .ok (scalar_fname, (afq.load scalar_fname).1, (afq.load scalar_fname).2)
    | none => .error (.keyError scalar_name)
  else
    .error (.runtimeError ("scalar should be one of " ++ String.intercalate ", " valid_scalars
      ++ ", you input " ++ scalar_name))

/-- `ThresholdedScalarMask.find_path`: resolved by the MRO to `ScalarMask.find_path`. -/
def ThresholdedScalarMask.find_path (bids_layout : Unit) (subject session : String) : Unit :=
  ScalarMask.find_path bids_layout subject session

/-- `ThresholdedScalarMask.get_mask(afq, row)`: `MaskFile.get_mask`, with the
MRO resolving `get_path_data_affine` to `ScalarMask` and `apply_conditions`
to `ThresholdedMaskFile`. -/
def ThresholdedScalarMask.get_mask (scalar_name : String) (lb ub : Option Rat) (combine : String)
    (afq : AFQ) : Except PyError (NPArray × Meta) :=
  MaskFile.get_mask_generic (ScalarMask.get_path_data_affine afq scalar_name)
    (ThresholdedMaskFile.apply_conditions lb ub combine) afq

/-- Built from the words of the spec for the refinement claim: the composite
mask behaves as the literal composition of the scalar source strategy
(resolve the named scalar, load it), the threshold condition strategy, and
the resampling step. -/
def SpecComposedThresholdedScalarMask (scalar_name : String) (lb ub : Option Rat)
    (combine : String) (afq : AFQ) : Except PyError (NPArray × Meta) := do
  let (scalar_fname, scalar_data, scalar_affine) ←
    ScalarMask.get_path_data_affine afq scalar_name
  let (mask_data, meta) ←
    ThresholdedMaskFile.apply_conditions lb ub combine scalar_data scalar_fname
  pure (_resample_mask mask_data (some afq.dwi_data) scalar_affine
    (some afq.dwi_affine) afq.resample, meta)

/-- A child of a `CombinedMask`: its Python class name (for attribute-error
messages; no mask class in the module defines `combine_mask` or `mask`) and
the result of its `get_mask(afq, row)` call. -/
structure ChildMask where
  cls : String
  get_mask_result : Except PyError (NPArray × Meta)

/-- Possible values of the local variable `mask` in `CombinedMask.get_mask`:
`None`, a child mask object, or a `_MaskCombiner`. -/
inductive MaskVar where
  | pynone
  | child (c : ChildMask)
  | combiner (c : _MaskCombiner)

/-- One iteration of the loop in `CombinedMask.get_mask`. The `for mask in
self.mask_list` statement rebinds the local variable `mask` to the child
before the body runs, so the body's `mask is None` test and
`mask.combine_mask` call see the child, not the accumulator `st`. -/
def CombinedMask.step (combine : String) (st : MaskVar × List Meta) (m : ChildMask) :
    Except PyError (MaskVar × List Meta) := do
  let mask : MaskVar := .child m
  let (next_mask, next_meta) ← m.get_mask_result
  match mask with
  | .pynone => do
      let c ← _MaskCombiner.init next_mask.shape combine
      pure (MaskVar.combiner c, st.2 ++ [next_meta])
  | .combiner c => do
      let c2 ← c.combine_mask next_mask
      pure (MaskVar.combiner c2, st.2 ++ [next_meta])
  | .child c =>
      .error (.attributeError ("\x27" ++ c.cls ++ "\x27 object has no attribute \x27combine_mask\x27"))

/-- `CombinedMask.get_mask(afq, row)`: the loop over `self.mask_list`,
the composite metadata, and the final `mask.mask` attribute access. -/
def CombinedMask.get_mask (mask_list : List ChildMask) (combine : String) :
    Except PyError (NPArray × Meta) := do
  let st ← mask_list.foldlM (CombinedMask.step combine) (MaskVar.pynone, ([] : List Meta))
  let meta : Meta := [("sources", PyVal.list (st.2.map PyVal.dict)),
    ("combined_with", PyVal.str combine)]
  match st.1 with
  | .combiner c => pure (c.mask, meta)
  | .pynone => .error (.attributeError "\x27NoneType\x27 object has no attribute \x27mask\x27")
  | .child c => .error (.attributeError ("\x27" ++ c.cls ++ "\x27 object has no attribute \x27mask\x27"))

/-- Children used as concrete failing input for the `CombinedMask` loop bug. -/
def exampleChildA : ChildMask :=
  ⟨"ThresholdedScalarMask", .ok (⟨.bool, [2], [1, 0]⟩, [("source", .str "dti_fa")])⟩

/-- Second child for the concrete `CombinedMask` failing input. -/
def exampleChildB : ChildMask :=
  ⟨"ThresholdedScalarMask", .ok (⟨.bool, [2], [1, 1]⟩, [("source", .str "dti_md")])⟩

/-- Concrete mask array (integer labels) for the resampling witness. -/
def w6mask : NPArray := ⟨.int, [1], [3]⟩

/-- Concrete 4-D diffusion array for the resampling witness. -/
def w6dwi : NPArray := ⟨.float, [2, 2], [1, 2, 3, 4]⟩

/-- Concrete affine for witnesses. -/
def w6aff : Affine := []

/-- Concrete resampling-service oracle for the resampling witness. -/
def w6res : NPArray → NPArray → Affine → Affine → NPArray :=
  fun _ _ _ _ => ⟨.float, [2], [1 / 2, 3 / 2]⟩

/-- Concrete loaded mask image for the cache-contract witness. -/
def w8arr : NPArray := ⟨.float, [1], [5]⟩

/-- Concrete external context for the cache-contract witness. -/
def w8afq : AFQ := ⟨⟨.float, [1, 1], [7]⟩, [], fun _ => (w8arr, []), fun m _ _ _ => m, []⟩

theorem truthy_b2r (b : Bool) : truthy (b2r b) = b := by
  cases b <;> norm_num [b2r, truthy]

theorem truthy_one : truthy 1 = true := by norm_num [truthy]

theorem zipWith_replicate_left_eq {α β γ : Type} (f : α → β → γ) (a : α) (l : List β) (n : Nat)
    (h : l.length = n) : List.zipWith f (List.replicate n a) l = l.map (f a) := by
  subst h
  induction l with
  | nil => simp
  | cons x xs ih => simp [List.replicate_succ, ih]

theorem zipWith_map_same {α β γ δ : Type} (f : β → γ → δ) (g : α → β) (h : α → γ) (l : List α) :
    List.zipWith f (l.map g) (l.map h) = l.map fun x => f (g x) (h x) := by
  rw [List.zipWith_map, List.zipWith_same]

theorem and_ones_fold (arr : NPArray) (g : Rat → Bool) (hwf : arr.data.length = arr.shape.prod) :
    List.zipWith (fun x y => b2r (truthy x && truthy y)) (List.replicate arr.shape.prod 1)
        (arr.data.map fun v => b2r (g v)) =
      arr.data.map fun v => b2r (g v) := by
  rw [zipWith_replicate_left_eq _ _ _ arr.shape.prod (by simp [hwf])]
  simp [List.map_map, Function.comp, truthy_one, truthy_b2r]

theorem except_ok_bind {ε α β : Type} (a : α) (f : α → Except ε β) :
    (Except.ok a : Except ε α) >>= f = f a := rfl

theorem except_error_bind {ε α β : Type} (e : ε) (f : α → Except ε β) :
    (Except.error e : Except ε α) >>= f = .error e := rfl

theorem labelled_or_fold (arr : NPArray) (labels : List Rat) (g : Rat → Bool) :
    labels.foldlM (fun m label => m.combine_mask (np_eq arr label))
        (⟨"or", ⟨.bool, arr.shape, arr.data.map fun v => b2r (g v)⟩⟩ : _MaskCombiner) =
      .ok ⟨"or", ⟨.bool, arr.shape,
        arr.data.map fun v => b2r (g v || decide (v ∈ labels))⟩⟩ := by
  induction labels generalizing g with
  | nil =>
      have : ∀ v : Rat, (g v || decide (v ∈ ([] : List Rat))) = g v := by
        intro v; simp
      simp only [this, List.foldlM_nil]
      rfl
  | cons l ls ih =>
      have hstep : (⟨"or", ⟨.bool, arr.shape, arr.data.map fun v => b2r (g v)⟩⟩ :
          _MaskCombiner).combine_mask (np_eq arr l) =
          .ok ⟨"or", ⟨.bool, arr.shape,
            arr.data.map fun v => b2r (g v || decide (v = l))⟩⟩ := by
        have hdata : List.zipWith (fun x y => b2r (truthy x || truthy y))
            (arr.data.map fun v => b2r (g v)) (arr.data.map fun v => b2r (decide (v = l))) =
            arr.data.map fun v => b2r (g v || decide (v = l)) := by
          rw [zipWith_map_same]
          apply List.map_congr_left
          intro v _
          simp [truthy_b2r]
        have hred : (⟨"or", ⟨.bool, arr.shape, arr.data.map fun v => b2r (g v)⟩⟩ :
            _MaskCombiner).combine_mask (np_eq arr l) =
            .ok ⟨"or", ⟨.bool, arr.shape, List.zipWith (fun x y => b2r (truthy x || truthy y))
              (arr.data.map fun v => b2r (g v))
              (arr.data.map fun v => b2r (decide (v = l)))⟩⟩ := rfl
        rw [hred, hdata]
      rw [List.foldlM_cons, hstep]
      have hih := ih (fun v => g v || decide (v = l))
      simp only [except_ok_bind] at hih ⊢
      rw [hih]
      have hmaps : (arr.data.map fun v => b2r (g v || decide (v = l) || decide (v ∈ ls))) =
          arr.data.map fun v => b2r (g v || decide (v ∈ l :: ls)) := by
        apply List.map_congr_left
        intro v _
        simp [List.mem_cons, Bool.decide_or, Bool.or_assoc]
      rw [hmaps]

theorem np_index_last0_shape (a : NPArray) : (np_index_last0 a).shape = a.shape.dropLast := rfl

theorem PyDict.get_set_self {β : Type} (d : PyDict β) (k : String) (v : β) :
    (d.set k v) k = some v := by
  simp [PyDict.set]

/-- C1: the claim says `CombinedMask.get_mask` on a non-empty child list
returns the elementwise fold of every child's boolean output, with a
`sources` metadata list in child order. The code cannot do this: the
statement `for mask in self.mask_list` rebinds the accumulator variable
`mask` to the child object, so `mask is None` is never true and
`mask.combine_mask(...)` is an attribute access on a child mask (no mask
class defines `combine_mask`). This theorem evaluates the embedded code at
a concrete two-child input (two `ThresholdedScalarMask`-style children
whose own `get_mask` calls succeed) and shows it raises `AttributeError`
instead of returning the fold. -/
theorem combinedMask_get_mask_loop_shadowing_bug :
    CombinedMask.get_mask [exampleChildA, exampleChildB] "and" =
      .error (.attributeError
        "\x27ThresholdedScalarMask\x27 object has no attribute \x27combine_mask\x27") := rfl

/-- C2: the claim says `CombinedMask.get_mask` on an empty child list raises
a configuration error naming the invalid configuration. The code instead
leaves the local variable `mask` as `None` (the loop body never runs) and
then evaluates `mask.mask`, raising a bare `AttributeError` about
`NoneType` that names nothing about the configuration. This theorem
evaluates the embedded code at the empty child list. -/
theorem combinedMask_get_mask_empty_list :
    CombinedMask.get_mask [] "and" =
      .error (.attributeError "\x27NoneType\x27 object has no attribute \x27mask\x27") := rfl

/-- C3: threshold-based condition application with operator "and": with both
bounds set the boolean result is true exactly where
`lower_bound < value < upper_bound` (strict inequalities); with only a
lower bound, exactly where `value > lower_bound`; with only an upper
bound, exactly where `value < upper_bound` (a `None` bound contributes no
fold). -/
theorem thresholdedMaskFile_bounds_and (lb ub : Rat) (arr : NPArray) (file : String)
    (hwf : arr.data.length = arr.shape.prod) :
    (ThresholdedMaskFile.apply_conditions (some lb) (some ub) "and" arr file =
      .ok (⟨.bool, arr.shape, arr.data.map fun v => b2r (decide (lb < v ∧ v < ub))⟩,
        [("source", PyVal.str file), ("upper_bound", PyVal.num ub),
         ("lower_bound", PyVal.num lb), ("combined_with", PyVal.str "and")])) ∧
    (ThresholdedMaskFile.apply_conditions (some lb) none "and" arr file =
      .ok (⟨.bool, arr.shape, arr.data.map fun v => b2r (decide (lb < v))⟩,
        [("source", PyVal.str file), ("upper_bound", PyVal.pynone),
         ("lower_bound", PyVal.num lb), ("combined_with", PyVal.str "and")])) ∧
    (ThresholdedMaskFile.apply_conditions none (some ub) "and" arr file =
      .ok (⟨.bool, arr.shape, arr.data.map fun v => b2r (decide (v < ub))⟩,
        [("source", PyVal.str file), ("upper_bound", PyVal.num ub),
         ("lower_bound", PyVal.pynone), ("combined_with", PyVal.str "and")])) := by
  refine ⟨?_, ?_, ?_⟩
  · have hdata : List.zipWith (fun x y => b2r (truthy x && truthy y))
        (List.zipWith (fun x y => b2r (truthy x && truthy y))
          (List.replicate arr.shape.prod 1) (arr.data.map fun v => b2r (decide (v < ub))))
        (arr.data.map fun v => b2r (decide (lb < v))) =
        arr.data.map fun v => b2r (decide (lb < v ∧ v < ub)) := by
      rw [and_ones_fold arr (fun v => decide (v < ub)) hwf, zipWith_map_same]
      apply List.map_congr_left
      intro v _
      simp [truthy_b2r, Bool.decide_and, Bool.and_comm]
    have hred : ThresholdedMaskFile.apply_conditions (some lb) (some ub) "and" arr file =
        .ok (⟨.bool, arr.shape, List.zipWith (fun x y => b2r (truthy x && truthy y))
          (List.zipWith (fun x y => b2r (truthy x && truthy y))
            (List.replicate arr.shape.prod 1) (arr.data.map fun v => b2r (decide (v < ub))))
          (arr.data.map fun v => b2r (decide (lb < v)))⟩,
        [("source", PyVal.str file), ("upper_bound", PyVal.num ub),
         ("lower_bound", PyVal.num lb), ("combined_with", PyVal.str "and")]) := rfl
    rw [hred, hdata]
  · have hdata := and_ones_fold arr (fun v => decide (lb < v)) hwf
    have hred : ThresholdedMaskFile.apply_conditions (some lb) none "and" arr file =
        .ok (⟨.bool, arr.shape, List.zipWith (fun x y => b2r (truthy x && truthy y))
          (List.replicate arr.shape.prod 1) (arr.data.map fun v => b2r (decide (lb < v)))⟩,
        [("source", PyVal.str file), ("upper_bound", PyVal.pynone),
         ("lower_bound", PyVal.num lb), ("combined_with", PyVal.str "and")]) := rfl
    rw [hred, hdata]
  · have hdata := and_ones_fold arr (fun v => decide (v < ub)) hwf
    have hred : ThresholdedMaskFile.apply_conditions none (some ub) "and" arr file =
        .ok (⟨.bool, arr.shape, List.zipWith (fun x y => b2r (truthy x && truthy y))
          (List.replicate arr.shape.prod 1) (arr.data.map fun v => b2r (decide (v < ub)))⟩,
        [("source", PyVal.str file), ("upper_bound", PyVal.num ub),
         ("lower_bound", PyVal.pynone), ("combined_with", PyVal.str "and")]) := rfl
    rw [hred, hdata]

/-- Witness for C3 at a concrete array and bounds. -/
theorem thresholdedMaskFile_bounds_and_witness :
    ThresholdedMaskFile.apply_conditions (some 1) (some 3) "and"
        ⟨.float, [4], [0, 1, 2, 3]⟩ "f" =
      .ok (⟨.bool, [4], ([0, 1, 2, 3] : List Rat).map fun v => b2r (decide ((1:Rat) < v ∧ v < 3))⟩,
        [("source", PyVal.str "f"), ("upper_bound", PyVal.num 3),
         ("lower_bound", PyVal.num 1), ("combined_with", PyVal.str "and")]) :=
  (thresholdedMaskFile_bounds_and 1 3 ⟨.float, [4], [0, 1, 2, 3]⟩ "f" (by decide)).1

/-- C4: label-based condition application with `inclusive_labels=[1,2]`,
`exclusive_labels=None` and the default "or" operator folds
`(array == label)` per inclusive label, so the boolean result is true
exactly at positions whose value is 1 or 2. -/
theorem labelledMaskFile_inclusive_or (arr : NPArray) (file : String)
    (hwf : arr.data.length = arr.shape.prod) :
    LabelledMaskFile.apply_conditions (some [1, 2]) none "or" arr file =
      .ok (⟨.bool, arr.shape, arr.data.map fun v => b2r (decide (v = 1 ∨ v = 2))⟩,
        [("source", PyVal.str file), ("inclusive_labels", PyVal.list [PyVal.num 1, PyVal.num 2]),
         ("exclusive_lavels", PyVal.pynone), ("combined_with", PyVal.str "or")]) := by
  have hzdata : List.replicate arr.shape.prod (0 : Rat) = arr.data.map fun _ => b2r false := by
    rw [List.map_const', hwf]
    rfl
  have hred : LabelledMaskFile.apply_conditions (some [1, 2]) none "or" arr file =
      (([1, 2] : List Rat).foldlM (fun m label => m.combine_mask (np_eq arr label))
        (⟨"or", ⟨.bool, arr.shape, List.replicate arr.shape.prod 0⟩⟩ : _MaskCombiner)) >>=
          fun mask => pure (mask.mask, [("source", PyVal.str file),
            ("inclusive_labels", PyVal.list [PyVal.num 1, PyVal.num 2]),
            ("exclusive_lavels", PyVal.pynone), ("combined_with", PyVal.str "or")]) := rfl
  rw [hred, hzdata, labelled_or_fold arr [1, 2] (fun _ => false), except_ok_bind]
  have hmaps : (arr.data.map fun v => b2r (false || decide (v ∈ ([1, 2] : List Rat)))) =
      arr.data.map fun v => b2r (decide (v = 1 ∨ v = 2)) := by
    apply List.map_congr_left
    intro v _
    simp [List.mem_cons]
  exact congrArg (fun d => (Except.ok (⟨DType.bool, arr.shape, d⟩, [("source", PyVal.str file),
    ("inclusive_labels", PyVal.list [PyVal.num 1, PyVal.num 2]),
    ("exclusive_lavels", PyVal.pynone), ("combined_with", PyVal.str "or")]) :
      Except PyError (NPArray × Meta))) hmaps

/-- Witness for C4 at a concrete array containing the values 0, 1, 2 and 3. -/
theorem labelledMaskFile_inclusive_or_witness :
    LabelledMaskFile.apply_conditions (some [1, 2]) none "or"
        ⟨.float, [4], [0, 1, 2, 3]⟩ "f" =
      .ok (⟨.bool, [4], ([0, 1, 2, 3] : List Rat).map fun v => b2r (decide (v = 1 ∨ v = 2))⟩,
        [("source", PyVal.str "f"), ("inclusive_labels", PyVal.list [PyVal.num 1, PyVal.num 2]),
         ("exclusive_lavels", PyVal.pynone), ("combined_with", PyVal.str "or")]) :=
  labelledMaskFile_inclusive_or ⟨.float, [4], [0, 1, 2, 3]⟩ "f" (by decide)

/-- C5: a `_MaskCombiner` on which zero folds are performed equals the
operator's identity element (all-false of the given shape for "or",
all-true for "and"), and label-based condition application with both label
lists `None` performs no folds and returns exactly that identity array. -/
theorem maskCombiner_zero_folds_identity (shape : List Nat) (arr : NPArray) (file : String) :
    (∃ c, _MaskCombiner.init shape "or" = .ok c ∧ c.mask = np_zeros_bool shape) ∧
    (∃ c, _MaskCombiner.init shape "and" = .ok c ∧ c.mask = np_ones_bool shape) ∧
    (∃ meta, LabelledMaskFile.apply_conditions none none "or" arr file =
      .ok (np_zeros_bool arr.shape, meta)) ∧
    (∃ meta, LabelledMaskFile.apply_conditions none none "and" arr file =
      .ok (np_ones_bool arr.shape, meta)) :=
  ⟨⟨_, rfl, rfl⟩, ⟨_, rfl, rfl⟩, ⟨_, rfl⟩, ⟨_, rfl⟩⟩

/-- C6: `_resample_mask` returns the mask unchanged when the reference
volume or its affine is absent, or when the reference's shape with the
last axis dropped equals the mask's shape; otherwise it returns the
external resample service's output rounded and cast back to the mask's
dtype. In every case the returned dtype equals the input mask's dtype. -/
theorem resample_mask_cases (mask_data : NPArray) (dwi_data : Option NPArray)
    (mask_affine : Affine) (dwi_affine : Option Affine)
    (resample : NPArray → NPArray → Affine → Affine → NPArray) :
    (_resample_mask mask_data dwi_data mask_affine dwi_affine resample).dtype = mask_data.dtype ∧
    (dwi_data = none →
      _resample_mask mask_data dwi_data mask_affine dwi_affine resample = mask_data) ∧
    (dwi_affine = none →
      _resample_mask mask_data dwi_data mask_affine dwi_affine resample = mask_data) ∧
    (∀ dwi daff, dwi_data = some dwi → dwi_affine = some daff →
      (dwi.shape.dropLast = mask_data.shape →
        _resample_mask mask_data dwi_data mask_affine dwi_affine resample = mask_data) ∧
      (dwi.shape.dropLast ≠ mask_data.shape →
        _resample_mask mask_data dwi_data mask_affine dwi_affine resample =
          (np_round (resample (mask_data.astype .float) (np_index_last0 dwi)
            mask_affine daff)).astype mask_data.dtype)) := by
  refine ⟨?_, ?_, ?_, ?_⟩
  · rcases dwi_data with _ | dwi
    · rfl
    · rcases dwi_affine with _ | daff
      · rfl
      · by_cases hsh : dwi.shape.dropLast = mask_data.shape
        · simp [_resample_mask, np_index_last0_shape, hsh]
        · simp [_resample_mask, np_index_last0_shape, hsh, NPArray.astype]
  · intro h
    subst h
    rfl
  · intro h
    subst h
    rcases dwi_data with _ | dwi <;> rfl
  · intro dwi daff h1 h2
    subst h1
    subst h2
    constructor
    · intro hsh
      simp [_resample_mask, np_index_last0_shape, hsh]
    · intro hsh
      simp [_resample_mask, np_index_last0_shape, hsh]

/-- Witness for C6 at a mask of integer dtype and a reference volume whose
spatial shape differs from the mask's. -/
theorem resample_mask_cases_witness :
    _resample_mask w6mask (some w6dwi) w6aff (some w6aff) w6res =
      (np_round (w6res (w6mask.astype .float) (np_index_last0 w6dwi) w6aff w6aff)).astype
        w6mask.dtype :=
  ((resample_mask_cases w6mask (some w6dwi) w6aff (some w6aff) w6res).2.2.2 w6dwi w6aff rfl
    rfl).2 (by decide)

/-- C7: any operator tag outside "and"/"or" makes both `_MaskCombiner`
construction and `combine_mask` on a combiner whose tag was mutated to it
fail with the configuration `TypeError` (whose value does not depend on
the arrays, so no array computation is involved, and no updated combiner
state is produced); tags "and" and "or" make both calls succeed. -/
theorem maskCombiner_invalid_operator (combine : String) (shape : List Nat) (m other : NPArray)
    (h1 : combine ≠ "and") (h2 : combine ≠ "or") :
    _MaskCombiner.init shape combine = .error (combine_illdefined combine) ∧
    _MaskCombiner.combine_mask ⟨combine, m⟩ other = .error (combine_illdefined combine) ∧
    (∃ c, _MaskCombiner.init shape "and" = .ok c) ∧
    (∃ c, _MaskCombiner.init shape "or" = .ok c) ∧
    (∃ c, _MaskCombiner.combine_mask ⟨"and", m⟩ other = .ok c) ∧
    (∃ c, _MaskCombiner.combine_mask ⟨"or", m⟩ other = .ok c) := by
  refine ⟨?_, ?_, ⟨_, rfl⟩, ⟨_, rfl⟩, ⟨_, rfl⟩, ⟨_, rfl⟩⟩
  · simp [_MaskCombiner.init, h1, h2]
  · simp [_MaskCombiner.combine_mask, h1, h2]

/-- Witness for C7 at the tag "xor". -/
theorem maskCombiner_invalid_operator_witness :
    _MaskCombiner.init [2] "xor" = .error (combine_illdefined "xor") :=
  (maskCombiner_invalid_operator "xor" [2] (np_ones_bool [2]) (np_zeros_bool [2])
    (by decide) (by decide)).1

/-- C8: for a file-backed mask, `get_mask` for a (session, subject) pair
whose cache entry `find_path` has not populated raises a `KeyError` (never
returning a default mask), and after a successful `find_path` for that
pair `get_mask` reads the cached path and succeeds. -/
theorem maskFile_cache_contract (fnames : PyDict (PyDict String)) (afq : AFQ)
    (bids_result : List String) (ses subject : String) :
    (fnames ses = none →
      MaskFile.get_mask fnames afq ses subject = .error (.keyError ses)) ∧
    (∀ inner, fnames ses = some inner → inner subject = none →
      MaskFile.get_mask fnames afq ses subject = .error (.keyError subject)) ∧
    (∀ f rest, bids_result = f :: rest →
      ∃ fnames2, MaskFile.find_path fnames bids_result subject ses = .ok fnames2 ∧
        ∃ out, MaskFile.get_mask fnames2 afq ses subject = .ok out) := by
  refine ⟨?_, ?_, ?_⟩
  · intro h
    simp [MaskFile.get_mask, MaskFile.get_mask_generic, MaskFile.get_path_data_affine, h,
      except_error_bind]
  · intro inner h1 h2
    simp [MaskFile.get_mask, MaskFile.get_mask_generic, MaskFile.get_path_data_affine, h1, h2,
      except_error_bind]
  · intro f rest h
    subst h
    refine ⟨_, rfl, ?_⟩
    refine ⟨(_resample_mask (afq.load f).1 (some afq.dwi_data) (afq.load f).2
      (some afq.dwi_affine) afq.resample, [("source", PyVal.str f)]), ?_⟩
    have hget : MaskFile.get_path_data_affine
        (fnames.set ses ((match fnames ses with
          | some d => d
          | none => PyDict.empty).set subject f)) afq.load ses subject =
        .ok (f, (afq.load f).1, (afq.load f).2) := by
      simp [MaskFile.get_path_data_affine, PyDict.get_set_self]
    simp [MaskFile.get_mask, MaskFile.get_mask_generic, MaskFile.find_path, hget,
      MaskFile.apply_conditions, except_ok_bind]

/-- Witness for C8: an empty cache raises `KeyError`, and after `find_path`
on a one-element query result `get_mask` succeeds. -/
theorem maskFile_cache_contract_witness :
    MaskFile.get_mask PyDict.empty w8afq "01" "sub" = .error (.keyError "01") ∧
    (∃ fnames2, MaskFile.find_path PyDict.empty ["f.nii.gz"] "sub" "01" = .ok fnames2 ∧
      ∃ out, MaskFile.get_mask fnames2 w8afq "01" "sub" = .ok out) :=
  ⟨(maskFile_cache_contract PyDict.empty w8afq ["f.nii.gz"] "01" "sub").1 rfl,
   (maskFile_cache_contract PyDict.empty w8afq ["f.nii.gz"] "01" "sub").2.2 "f.nii.gz" [] rfl⟩

/-- C9: `ThresholdedScalarMask.get_mask` equals the composition of
`ScalarMask`'s scalar-source resolution with `ThresholdedMaskFile`'s
threshold condition logic followed by resampling (the spec-side
composition `SpecComposedThresholdedScalarMask`), and its `find_path` is a
no-op. -/
theorem thresholdedScalarMask_composition (scalar_name : String) (lb ub : Option Rat)
    (combine : String) (afq : AFQ) (bids_layout : Unit) (subject session : String) :
    ThresholdedScalarMask.get_mask scalar_name lb ub combine afq =
      SpecComposedThresholdedScalarMask scalar_name lb ub combine afq ∧
    ThresholdedScalarMask.find_path bids_layout subject session = () := by
  constructor
  · rcases hgp : ScalarMask.get_path_data_affine afq scalar_name with e | ⟨fname, data, affine⟩
    · simp [ThresholdedScalarMask.get_mask, SpecComposedThresholdedScalarMask,
        MaskFile.get_mask_generic, hgp, except_error_bind]
    · rcases hac : ThresholdedMaskFile.apply_conditions lb ub combine data fname
        with e | ⟨md, meta⟩
      · simp [ThresholdedScalarMask.get_mask, SpecComposedThresholdedScalarMask,
          MaskFile.get_mask_generic, hgp, hac, except_ok_bind, except_error_bind]
      · simp [ThresholdedScalarMask.get_mask, SpecComposedThresholdedScalarMask,
          MaskFile.get_mask_generic, hgp, hac, except_ok_bind]
  · rfl

/-- C10: `FullMask.get_mask` returns `np.ones` of the full diffusion-data
shape (including the trailing gradient axis) with the default float dtype
and metadata exactly `source: Entire Volume`; the definition contains no
resampling call, and the full (not spatial) shape of the result shows none
was applied. -/
theorem fullMask_get_mask_spec (afq : AFQ) :
    FullMask.get_mask afq =
      (np_ones afq.dwi_data.shape, [("source", PyVal.str "Entire Volume")]) ∧
    (FullMask.get_mask afq).1.shape = afq.dwi_data.shape ∧
    (FullMask.get_mask afq).1.dtype = DType.float ∧
    (FullMask.get_mask afq).1.data = List.replicate afq.dwi_data.shape.prod 1 :=
  ⟨rfl, rfl, rfl, rfl⟩
